import Mathlib

/-!
The `/execute` handler of `server/main.go`

The handler registered by `router.POST("/execute", ...)` is a straight-line
procedure with early returns.  Every effect it performs is a call to a
collaborator (the gin context, the filesystem, the docker client), so it is
embedded as a function from the results those calls deliver to the ordered
list of calls it makes.  `defer` statements are kept on an explicit stack and
run, last registered first, when the procedure returns.
-/

namespace RemoteCodeExec

/-- A non-nil Go `error`, identified with its message. A nil error is `none`
of `Option GoError`. -/
abbrev GoError := String

/-- A Go byte sequence.  Go's `[]byte(s)` and `string(b)` conversions copy the
bytes unchanged, so `payload.Code`, `content`, `logs` and `message` all live in
this type and the conversions are the identity. -/
abbrev Bytes := List (Fin 256)

/-- Go `Payload` struct (main.go:28-31). -/
structure Payload where
  Type' : String
  Code : Bytes
deriving DecidableEq, Repr

/-- Go map lookup with the comma-ok form: `v, ok := m[k]`. -/
def mapGet {α : Type} (m : List (String × α)) (k : String) : Option α :=
  m.lookup k

/-- Go map index `m[k]` on a `map[string]string`: the zero value `""` when the
key is absent. -/
def mapIndex (m : List (String × String)) (k : String) : String :=
  (m.lookup k).getD ""

/-- The `languages` registry (main.go:33-54). -/
def languages : List (String × List (String × String)) :=
  [ ("python", [("image", "python-0.1"), ("filename", "main.py")]),
    ("node",   [("image", "node-0.1"),   ("filename", "main.js")]),
    ("c",      [("image", "c-0.1"),      ("filename", "main.c")]),
    ("cpp",    [("image", "cpp-0.1"),    ("filename", "main.cpp")]),
    ("go",     [("image", "go-0.1"),     ("filename", "main.go")]) ]

/-- Go `ErrSomethingWentWrong.Error()` (main.go:24). -/
def ErrSomethingWentWrong : String := "something went wrong"

/-- Go `http.StatusInternalServerError`. -/
def StatusInternalServerError : Nat := 500

/-- Go `http.StatusOK`. -/
def StatusOK : Nat := 200

/-- The two shapes of `gin.H` the handler builds: `{"status", "message"}` and
`{"status", "response"}`. -/
inductive H where
  | message (status : Nat) (message : String)
  | response (status : Nat) (response : Bytes)
deriving DecidableEq, Repr

/-- One `c.JSON(code, obj)` call. -/
structure Response where
  code : Nat
  obj : H
deriving DecidableEq, Repr

/-- The fields of `container.Config` the handler sets (main.go:130-136); all
other fields keep their zero value. -/
structure ContainerConfig where
  Image : String
  Env : List String
  Tty : Bool
  AttachStdout : Bool
  AttachStderr : Bool
deriving DecidableEq, Repr

/-- Go `mount.Mount` with the fields the handler sets. `Type'` holds the mount
type; `mount.TypeBind` is the string `"bind"`. -/
structure Mount where
  Type' : String
  Source : String
  Target : String
deriving DecidableEq, Repr

/-- Go `mount.TypeBind`. -/
def TypeBind : String := "bind"

/-- The fields of `container.HostConfig` the handler sets (main.go:138-149):
`Mounts` and `Resources.Memory` (an `int64` number of bytes). -/
structure HostConfig where
  Mounts : List Mount
  Memory : Int
deriving DecidableEq, Repr

/-- Go `container.WaitConditionNotRunning`. -/
def WaitConditionNotRunning : String := "not-running"

/-- Go `10 * time.Second`, a `time.Duration` in nanoseconds. -/
def awaitDeadline : Nat := 10 * 1000000000

/-- The calls the handler makes, in the order it makes them. -/
inductive Event where
  /-- Call `log.Println(label, detail)` -/
  | Println (label : String) (detail : String)
  /-- Call `c.JSON(code, obj)` -/
  | JSON (r : Response)
  /-- Call `ioutil.TempDir(dir, pattern)` -/
  | TempDir (dir : String) (pattern : String)
  /-- Call `ioutil.WriteFile(filename, data, perm)` -/
  | WriteFile (filename : String) (data : Bytes) (perm : Nat)
  /-- Call `filepath.Abs(path)` -/
  | Abs (path : String)
  /-- Call `client.NewClientWithOpts(client.FromEnv, client.WithAPIVersionNegotiation())` -/
  | NewClientWithOpts
  /-- Call `cli.ContainerCreate(ctx, &config, &hostConfig, nil, nil, name)` -/
  | ContainerCreate (config : ContainerConfig) (hostConfig : HostConfig) (name : String)
  /-- Call `cli.ContainerStart(ctx, id, types.ContainerStartOptions{})` -/
  | ContainerStart (id : String)
  /-- Call `cli.ContainerWait(ctx, id, condition)` -/
  | ContainerWait (id : String) (condition : String)
  /-- Call `time.After(d)`, evaluated on entry to the `select` -/
  | After (d : Nat)
  /-- Call `cli.ContainersPrune(ctx, filters.Args{})` -/
  | ContainersPrune
  /-- Call `cli.ContainerLogs(ctx, id, types.ContainerLogsOptions{ShowStdout, ShowStderr})` -/
  | ContainerLogs (id : String) (ShowStdout : Bool) (ShowStderr : Bool)
  /-- Call `ioutil.ReadAll(out)` -/
  | ReadAll
  /-- Call `cli.ContainerRemove(ctx, id, types.ContainerRemoveOptions{Force})` -/
  | ContainerRemove (id : String) (Force : Bool)
  /-- Call `out.Close()` (deferred) -/
  | OutClose
  /-- Call `cli.Close()` (deferred) -/
  | CliClose
  /-- Call `os.RemoveAll(path)` (deferred) -/
  | RemoveAll (path : String)
deriving DecidableEq, Repr

/-- Which case of the `select` at main.go:173 is taken, with the value received. -/
inductive WaitSignal where
  /-- Case `case err := <-errCh`; `none` is a nil error value -/
  | errCh (err : Option GoError)
  /-- Case `case status := <-statusCh`, with `status.StatusCode` -/
  | statusCh (StatusCode : Int)
  /-- Case `case <-time.After(10 * time.Second)` -/
  | after
deriving DecidableEq, Repr

/-- What each collaborator call delivers in one run of the handler.  Every
call is made at most once per run, so one value per call suffices.  A value
for a call the run never reaches is simply not consulted. -/
structure Outcomes where
  /-- Call `c.ShouldBindJSON(&payload)`: the error, or the bound payload -/
  ShouldBindJSON : Except GoError Payload
  /-- Call `ioutil.TempDir("./", "source")` -/
  TempDir : Except GoError String
  /-- Call `filepath.Join`, a pure library function -/
  Join : String → String → String
  /-- Call `ioutil.WriteFile(...)`: the error, `none` for nil -/
  WriteFile : Option GoError
  /-- Call `filepath.Abs(dir)` -/
  Abs : Except GoError String
  /-- Call `client.NewClientWithOpts(...)`: the error, `none` for nil -/
  NewClientWithOpts : Option GoError
  /-- Call `cli.ContainerCreate(...)`: the error, or `resp.ID` -/
  ContainerCreate : Except GoError String
  /-- Call `cli.ContainerStart(...)`: the error, `none` for nil -/
  ContainerStart : Option GoError
  /-- The `select` over `errCh`, `statusCh` and the timer -/
  ContainerWait : WaitSignal
  /-- Call `cli.ContainersPrune(...)`: the error, `none` for nil -/
  ContainersPrune : Option GoError
  /-- Call `cli.ContainerLogs(...)`: the error, `none` for nil -/
  ContainerLogs : Option GoError
  /-- Call `ioutil.ReadAll(out)` -/
  ReadAll : Except GoError Bytes
  /-- Call `cli.ContainerRemove(...)`: the error, `none` for nil -/
  ContainerRemove : Option GoError

/-- The activation of the handler: calls made so far and the `defer` stack
(head = last registered = first to run). -/
structure Frame where
  trace : List Event
  deferred : List Event
deriving DecidableEq, Repr

/-- Perform a call. -/
def Frame.emit (f : Frame) (e : Event) : Frame :=
  { f with trace := f.trace ++ [e] }

/-- Go `defer`: push a call on the stack. -/
def Frame.defer (f : Frame) (e : Event) : Frame :=
  { f with deferred := e :: f.deferred }

/-- Go `return`: the deferred calls run, last registered first. -/
def Frame.ret (f : Frame) : List Event :=
  f.trace ++ f.deferred

/-- The response every error branch builds:
`c.JSON(http.StatusInternalServerError, gin.H{"status": ..., "message": ...})`. -/
def errorResponse : Response :=
  ⟨StatusInternalServerError, .message StatusInternalServerError ErrSomethingWentWrong⟩

/-- The body shared by the error branches: `log.Println(label, detail)`, then
the error response. The `return` follows at the call site. -/
def Frame.fail (f : Frame) (label detail : String) : Frame :=
  (f.emit (.Println label detail)).emit (.JSON errorResponse)

/-- The `case status := <-statusCh` branch for a code other than 137
(main.go:196-227). -/
def collect (o : Outcomes) (id : String) (f : Frame) : Frame :=
  let f := f.emit (.ContainerLogs id true true)
  match o.ContainerLogs with
  | some err => f.fail "ContainerLogs:" err
  | none =>
    let f := f.defer .OutClose
    let f := f.emit .ReadAll
    match o.ReadAll with
    | .error err => f.fail "ReadAll:" err
    | .ok logs =>
      let message := logs
      let f := f.emit (.ContainerRemove id true)
      f.emit (.JSON ⟨StatusOK, .response StatusOK message⟩)

/-- The `select` statement (main.go:172-237). -/
def await (o : Outcomes) (id : String) (f : Frame) : Frame :=
  let f := f.emit (.ContainerWait id WaitConditionNotRunning)
  let f := f.emit (.After awaitDeadline)
  match o.ContainerWait with
  | .errCh (some err) => f.fail "ContainerWait: " err
  | .errCh none => f
  | .statusCh StatusCode =>
    if StatusCode = 137 then
      let f := f.emit .ContainersPrune
      f.fail "StatusCode:" "Out of Memory"
    else
      collect o id f
  | .after =>
    let f := f.emit (.ContainerRemove id true)
    f.emit (.JSON errorResponse)

/-- The `containerConfig` literal (main.go:130-136). -/
def containerConfig (langauge : List (String × String)) : ContainerConfig :=
  { Image := mapIndex langauge "image",
    Env := ["FILE_NAME=" ++ mapIndex langauge "filename"],
    Tty := false,
    AttachStdout := true,
    AttachStderr := true }

/-- The `hostConfig` literal (main.go:138-149); `1e+9` converts to the `int64`
1000000000. -/
def hostConfig (fullpath : String) : HostConfig :=
  { Mounts := [{ Type' := TypeBind, Source := fullpath, Target := "/app" }],
    Memory := 1000000000 }

/-- Client initialisation, create and start (main.go:116-169). -/
def provision (o : Outcomes) (langauge : List (String × String)) (fullpath : String)
    (f : Frame) : Frame :=
  let f := f.emit .NewClientWithOpts
  match o.NewClientWithOpts with
  | some err => f.fail "NewClientWithOpts:" err
  | none =>
    let f := f.defer .CliClose
    let f := f.emit (.ContainerCreate (containerConfig langauge) (hostConfig fullpath) "")
    match o.ContainerCreate with
    | .error err => f.fail "ContainerCreate: " err
    | .ok id =>
      let f := f.emit (.ContainerStart id)
      match o.ContainerStart with
      | some err => f.fail "ContainerStart: " err
      | none => await o id f

/-- The workspace steps (main.go:81-113). -/
def workspace (o : Outcomes) (payload : Payload) (langauge : List (String × String))
    (f : Frame) : Frame :=
  let content := payload.Code
  let f := f.emit (.TempDir "./" "source")
  match o.TempDir with
  | .error err => f.fail "TempDir:" err
  | .ok dir =>
    let f := f.defer (.RemoveAll dir)
    let tmpfn := o.Join dir (mapIndex langauge "filename")
    let f := f.emit (.WriteFile tmpfn content 0o777)
    match o.WriteFile with
    | some err => f.fail "WriteFile:" err
    | none =>
      let f := f.emit (.Abs dir)
      match o.Abs with
      | .error err => f.fail "Abs:" err
      | .ok fullpath => provision o langauge fullpath f

/-- The body of the handler (main.go:59-238), up to its `return`. -/
def body (o : Outcomes) : Frame :=
  let f : Frame := ⟨[], []⟩
  match o.ShouldBindJSON with
  | .error err => f.fail "ShouldBindJSON:" err
  | .ok payload =>
    match mapGet languages payload.Type' with
    | none => f.fail "languages[payload.Type]:" "Could not find payload.Type in languages"
    | some langauge => workspace o payload langauge f

/-- One run of the `/execute` handler: every call it makes, in order, the
deferred ones included. -/
def execute (o : Outcomes) : List Event :=
  (body o).ret

/-- The responses written in a run. -/
def responses (t : List Event) : List Response :=
  t.filterMap fun e => match e with
    | .JSON r => some r
    | _ => none

/-- Whether a call goes to the container runtime (create, start, wait, prune,
logs, remove). -/
def Event.isRuntimeCall : Event → Bool
  | .ContainerCreate _ _ _ => true
  | .ContainerStart _ => true
  | .ContainerWait _ _ => true
  | .ContainersPrune => true
  | .ContainerLogs _ _ _ => true
  | .ContainerRemove _ _ => true
  | _ => false

/-- The container-runtime calls of a run, in order. -/
def runtimeCalls (t : List Event) : List Event :=
  t.filter Event.isRuntimeCall

/-- Go `unicode/utf8` table `first`, indexed by the leading byte: `0xF0` for
an ASCII byte, `0xF1` for a byte that cannot start a sequence, and otherwise
the index into `acceptRanges` in the high four bits and the length of the
sequence in the low three. -/
def first (b : Fin 256) : Nat :=
  if b.val < 0x80 then 0xF0
  else if b.val < 0xC2 then 0xF1
  else if b.val < 0xE0 then 0x02
  else if b.val = 0xE0 then 0x13
  else if b.val < 0xED then 0x03
  else if b.val = 0xED then 0x23
  else if b.val < 0xF0 then 0x03
  else if b.val = 0xF0 then 0x34
  else if b.val < 0xF4 then 0x04
  else if b.val = 0xF4 then 0x44
  else 0xF1

/-- Go `unicode/utf8` table `acceptRanges`: the lowest and highest second byte
a sequence may have. -/
def acceptRanges (i : Nat) : Nat × Nat :=
  match i with
  | 0 => (0x80, 0xBF)
  | 1 => (0xA0, 0xBF)
  | 2 => (0x80, 0x9F)
  | 3 => (0x90, 0xBF)
  | 4 => (0x80, 0x8F)
  | _ => (0, 0)

/-- Go `utf8.DecodeRuneInString(s)`, reduced to what `encoding/json` tests:
`none` when it returns `(RuneError, 1)`, that is, when `s` does not start
with a valid UTF-8 sequence, and `some size` otherwise. -/
def DecodeRuneInString (s : Bytes) : Option Nat :=
  match s with
  | [] => some 0
  | s0 :: rest =>
    let x := first s0
    if x ≥ 0xF0 then
      if x = 0xF1 then none else some 1
    else
      let sz := x % 8
      let accept := acceptRanges (x / 16)
      if s.length < sz then none
      else
        match rest with
        | [] => none
        | s1 :: rest =>
          if s1.val < accept.1 ∨ accept.2 < s1.val then none
          else if sz ≤ 2 then some 2
          else
            match rest with
            | [] => none
            | s2 :: rest =>
              if s2.val < 0x80 ∨ 0xBF < s2.val then none
              else if sz ≤ 3 then some 3
              else
                match rest with
                | [] => none
                | s3 :: _ =>
                  if s3.val < 0x80 ∨ 0xBF < s3.val then none
                  else some 4

/-- The string a JSON decoder reads back from what `encoding/json` writes for
a Go string, as `c.JSON` does for a member of `gin.H`.  The encoder walks the
string one `DecodeRuneInString` at a time: where that returns `(RuneError, 1)`
it writes the escape of U+FFFD (UTF-8 bytes EF BF BD) and advances one byte;
every other character it writes as itself or as an escape of itself.  The
first argument counts the bytes of the current sequence still to be copied. -/
def jsonStringValue : Nat → Bytes → Bytes
  | _, [] => []
  | k + 1, b :: rest => b :: jsonStringValue k rest
  | 0, b :: rest =>
    match DecodeRuneInString (b :: rest) with
    | none => 239 :: 191 :: 189 :: jsonStringValue 0 rest
    | some size => b :: jsonStringValue (size - 1) rest

/-- Go `utf8.Valid`: no `DecodeRuneInString` step over the bytes returns
`(RuneError, 1)`.  The first argument counts the bytes of the current
sequence still to be skipped. -/
def Valid : Nat → Bytes → Bool
  | _, [] => true
  | k + 1, _ :: rest => Valid k rest
  | 0, b :: rest =>
    match DecodeRuneInString (b :: rest) with
    | none => false
    | some size => Valid (size - 1) rest

/-- The members of the JSON body as the caller decodes them.  The `message` of
the model is a Unicode string and is read back as written. -/
def H.decoded : H → H
  | .message st m => .message st m
  | .response st b => .response st (jsonStringValue 0 b)

/-- What the caller receives for one `c.JSON(code, obj)`: the HTTP status
`code` and the decoded body. -/
def reply (r : Response) : Response :=
  ⟨r.code, r.obj.decoded⟩

/-- What the caller receives in a run. -/
def replies (t : List Event) : List Response :=
  (responses t).map reply

/-- A run for the request `{"type": "python", "code": "hi"}` in which every
collaborator call succeeds and the program exits with code 0. -/
def happy : Outcomes where
  ShouldBindJSON := .ok ⟨"python", [104, 105]⟩
  TempDir := .ok "source1"
  Join := fun a b => a ++ "/" ++ b
  WriteFile := none
  Abs := .ok "/srv/source1"
  NewClientWithOpts := none
  ContainerCreate := .ok "c1"
  ContainerStart := none
  ContainerWait := .statusCh 0
  ContainersPrune := none
  ContainerLogs := none
  ReadAll := .ok [111, 107, 10]
  ContainerRemove := none

/-- Every step up to and including `ContainerCreate` succeeds: the body is
bound to `payload`, its tag is a key of `languages` with profile `langauge`,
the workspace is `dir` with absolute path `fullpath`, and the created
container is `id`. -/
def Provisioned (o : Outcomes) (payload : Payload) (langauge : List (String × String))
    (dir fullpath id : String) : Prop :=
  o.ShouldBindJSON = .ok payload ∧ mapGet languages payload.Type' = some langauge ∧
  o.TempDir = .ok dir ∧ o.WriteFile = none ∧ o.Abs = .ok fullpath ∧
  o.NewClientWithOpts = none ∧ o.ContainerCreate = .ok id

/-- A run in which `ContainerStart` fails after a successful create. -/
def startFails : Outcomes := { happy with ContainerStart := some "start: no such image" }

/-- A run in which the error channel delivers a non-nil error first. -/
def waitErrs : Outcomes := { happy with ContainerWait := .errCh (some "wait: EOF") }

/-- A run in which the error channel delivers a nil error first. -/
def waitNil : Outcomes := { happy with ContainerWait := .errCh none }

/-- A run in which the program is killed with exit code 137. -/
def oomKilled : Outcomes := { happy with ContainerWait := .statusCh 137 }

/-- A run in which `ContainerLogs` fails after the program exited with code 1. -/
def logsFail : Outcomes :=
  { happy with ContainerWait := .statusCh 1, ContainerLogs := some "logs: gone" }

/-- A run in which `ReadAll` fails after the program exited with code 0. -/
def readFails : Outcomes := { happy with ReadAll := .error "unexpected EOF" }

/-- A run in which the 10-second timer fires first. -/
def timesOut : Outcomes := { happy with ContainerWait := .after }

/-- A run for the request `{"type": "ruby", "code": "hi"}`. -/
def unknownTag : Outcomes := { happy with ShouldBindJSON := .ok ⟨"ruby", [104, 105]⟩ }

/-- A run in which `ioutil.TempDir` fails. -/
def tempDirFails : Outcomes := { happy with TempDir := .error "mkdir: read-only file system" }

/-- A run in which the program exits with code 0 and its logs are the bytes
FF 68 69, which are not valid UTF-8. -/
def invalidLogs : Outcomes := { happy with ReadAll := .ok [255, 104, 105] }

/-- A run in which `ShouldBindJSON` fails. -/
def bindFails : Outcomes := { happy with ShouldBindJSON := .error "EOF" }

/-! ## Shared lemmas -/

/-- `happy` passes every step up to and including `ContainerCreate`. -/
theorem happy_provisioned :
    Provisioned happy ⟨"python", [104, 105]⟩ [("image", "python-0.1"), ("filename", "main.py")]
      "source1" "/srv/source1" "c1" := by
  refine ⟨rfl, ?_, rfl, rfl, rfl, rfl, rfl⟩
  decide

/-- Every response a run writes is either the error response or a 200 with a
`response` field. -/
theorem responses_cases (o : Outcomes) (r : Response) (h : r ∈ responses (execute o)) :
    r = errorResponse ∨ ∃ b, r = ⟨StatusOK, .response StatusOK b⟩ := by
  revert h
  simp only [execute, body, workspace, provision, await, collect, Frame.ret, Frame.emit,
    Frame.defer, Frame.fail, responses]
  repeat' split
  all_goals simp
  all_goals (intro h; simp [h])

/-- The keys of `languages` and their profiles. -/
theorem languages_profiles (tag : String) (langauge : List (String × String))
    (h : mapGet languages tag = some langauge) :
    (tag, mapIndex langauge "image", mapIndex langauge "filename") ∈
      [("python", "python-0.1", "main.py"), ("node", "node-0.1", "main.js"),
       ("c", "c-0.1", "main.c"), ("cpp", "cpp-0.1", "main.cpp"), ("go", "go-0.1", "main.go")] := by
  simp only [mapGet, languages, List.lookup] at h
  repeat' split at h
  all_goals simp at h
  all_goals subst h
  all_goals simp_all [mapIndex, List.lookup]

/-- The error response is read back by the caller as written. -/
theorem reply_errorResponse : reply errorResponse = errorResponse := rfl

/-- Every reply of a run is either the error response or a 200 with a
`response` field. -/
theorem replies_cases (o : Outcomes) (r : Response) (h : r ∈ replies (execute o)) :
    r = errorResponse ∨ ∃ b, r = ⟨StatusOK, .response StatusOK b⟩ := by
  simp only [replies, List.mem_map] at h
  obtain ⟨r', hr', rfl⟩ := h
  rcases responses_cases o r' hr' with h | ⟨b, h⟩
  · left; rw [h]; rfl
  · right; exact ⟨jsonStringValue 0 b, by rw [h]; rfl⟩

/-- Valid UTF-8 is read back byte for byte. -/
theorem jsonStringValue_of_valid (s : Bytes) :
    ∀ k, Valid k s = true → jsonStringValue k s = s := by
  induction s with
  | nil => intro k _; cases k <;> rfl
  | cons b rest ih =>
    intro k h
    cases k with
    | succ k =>
      simp only [Valid] at h
      simp only [jsonStringValue, ih k h]
    | zero =>
      simp only [Valid] at h
      simp only [jsonStringValue]
      cases hd : DecodeRuneInString (b :: rest) with
      | none => simp [hd] at h
      | some size =>
        simp only [hd] at h
        simp only [ih _ h]

/-- When the error channel delivers a nil error first, the `select` falls
through and the run writes no response. -/
theorem errCh_nil_falls_through :
    waitNil.ContainerWait = .errCh none ∧ responses (execute waitNil) = [] :=
  ⟨rfl, by decide⟩

/-! ## The claims -/

/-- C3, as stated, fails: in `invalidLogs` every step succeeds, the exit
code is 0 and the logs read are the bytes FF 68 69; the handler hands them to
`c.JSON` unchanged, but the payload the caller receives is EF BF BD 68 69. -/
theorem C3_counterexample :
    (invalidLogs.ContainerWait = .statusCh 0 ∧ invalidLogs.ReadAll = .ok [255, 104, 105]) ∧
    responses (execute invalidLogs) = [⟨200, .response 200 [255, 104, 105]⟩] ∧
    replies (execute invalidLogs) = [⟨200, .response 200 [239, 191, 189, 104, 105]⟩] ∧
    replies (execute invalidLogs) ≠ [⟨200, .response 200 [255, 104, 105]⟩] :=
  ⟨⟨rfl, rfl⟩, by decide, by decide, by decide⟩

/-- C3, amended: when the request is bound, its tag is registered, every
provisioning step and the start succeed, the status channel is received first
with a code other than 137, and fetching and reading the logs succeed with
bytes `b`, the handler writes exactly one response,
`c.JSON(200, {"status": 200, "response": string(b)})`, handing over `b`
unchanged; the caller receives status 200 and as payload `b` with every byte
that does not belong to a valid UTF-8 sequence replaced by U+FFFD, which is
`b` byte for byte whenever `b` is valid UTF-8. -/
theorem C3_success_payload (o : Outcomes) (payload : Payload)
    (langauge : List (String × String)) (dir fullpath id : String) (c : Int) (b : Bytes)
    (hp : Provisioned o payload langauge dir fullpath id)
    (hs : o.ContainerStart = none) (hw : o.ContainerWait = .statusCh c) (hc : c ≠ 137)
    (hl : o.ContainerLogs = none) (hr : o.ReadAll = .ok b) :
    responses (execute o) = [⟨200, .response 200 b⟩] ∧
    replies (execute o) = [⟨200, .response 200 (jsonStringValue 0 b)⟩] ∧
    (Valid 0 b = true → replies (execute o) = [⟨200, .response 200 b⟩]) := by
  obtain ⟨h1, h2, h3, h4, h5, h6, h7⟩ := hp
  have hres : responses (execute o) = [⟨200, .response 200 b⟩] := by
    simp [execute, body, workspace, provision, await, collect, Frame.ret, Frame.emit,
      Frame.defer, Frame.fail, responses, h1, h2, h3, h4, h5, h6, h7, hs, hw, hc, hl, hr,
      StatusOK]
  refine ⟨hres, ?_, fun hv => ?_⟩
  · simp [replies, hres, reply, H.decoded]
  · simp [replies, hres, reply, H.decoded, jsonStringValue_of_valid b 0 hv]

/-- C3, amended, at `happy`: exit code 0 and logs `"ok\n"`, valid UTF-8. -/
theorem C3_success_payload_witness :
    responses (execute happy) = [⟨200, .response 200 [111, 107, 10]⟩] ∧
    replies (execute happy) = [⟨200, .response 200 (jsonStringValue 0 [111, 107, 10])⟩] ∧
    (Valid 0 [111, 107, 10] = true →
      replies (execute happy) = [⟨200, .response 200 [111, 107, 10]⟩]) :=
  C3_success_payload happy _ _ _ _ _ 0 _ happy_provisioned rfl rfl (by decide) rfl rfl

/-- C4: the keys of `languages` are python, node, c, cpp and go, and for a
bound request whose tag is not one of them the whole run is one log line and
the error response: no `TempDir`, no `WriteFile`, no client, no call to the
container runtime, and nothing deferred. -/
theorem C4_unknown_tag_no_side_effects :
    languages.map Prod.fst = ["python", "node", "c", "cpp", "go"] ∧
    ∀ (o : Outcomes) (tag : String) (code : Bytes),
      o.ShouldBindJSON = .ok ⟨tag, code⟩ → tag ∉ languages.map Prod.fst →
      execute o =
        [.Println "languages[payload.Type]:" "Could not find payload.Type in languages",
         .JSON ⟨500, .message 500 "something went wrong"⟩] := by
  refine ⟨rfl, ?_⟩
  intro o tag code hb hk
  have hl : mapGet languages tag = none := by
    simp only [languages, List.map, List.mem_cons, List.mem_singleton, not_or] at hk
    obtain ⟨k1, k2, k3, k4, k5, -⟩ := hk
    have b1 : (tag == "python") = false := beq_eq_false_iff_ne.mpr k1
    have b2 : (tag == "node") = false := beq_eq_false_iff_ne.mpr k2
    have b3 : (tag == "c") = false := beq_eq_false_iff_ne.mpr k3
    have b4 : (tag == "cpp") = false := beq_eq_false_iff_ne.mpr k4
    have b5 : (tag == "go") = false := beq_eq_false_iff_ne.mpr k5
    simp only [mapGet, languages, List.lookup, b1, b2, b3, b4, b5]
  simp [execute, body, Frame.ret, Frame.emit, Frame.fail, hb, hl, errorResponse,
    StatusInternalServerError, ErrSomethingWentWrong]

/-- C4 at the request `{"type": "ruby", "code": "hi"}`. -/
theorem C4_unknown_tag_no_side_effects_witness :
    execute unknownTag =
      [.Println "languages[payload.Type]:" "Could not find payload.Type in languages",
       .JSON ⟨500, .message 500 "something went wrong"⟩] :=
  C4_unknown_tag_no_side_effects.2 unknownTag "ruby" [104, 105] rfl (by decide)

/-- C8: every listed cause ends in the same reply, status 500 with body
`{"status": 500, "message": "something went wrong"}`, whatever error value
the failing call delivered: a bind failure, an unknown tag, a `TempDir`,
`WriteFile`, `Abs`, client, create or start failure, a non-nil error on the
error channel, exit code 137, a log-fetch or log-read failure, and the
timeout.  In each of these runs it is the only reply.  Moreover any two
replies, of any two runs, that are not the 200 success are equal to it. -/
theorem C8_uniform_failure_response (o : Outcomes) :
    errorResponse = ⟨500, .message 500 "something went wrong"⟩ ∧
    (∀ e, o.ShouldBindJSON = .error e → replies (execute o) = [errorResponse]) ∧
    (∀ p, o.ShouldBindJSON = .ok p → mapGet languages p.Type' = none →
      replies (execute o) = [errorResponse]) ∧
    (∀ p l e, o.ShouldBindJSON = .ok p → mapGet languages p.Type' = some l →
      o.TempDir = .error e → replies (execute o) = [errorResponse]) ∧
    (∀ p l d e, o.ShouldBindJSON = .ok p → mapGet languages p.Type' = some l →
      o.TempDir = .ok d → o.WriteFile = some e → replies (execute o) = [errorResponse]) ∧
    (∀ p l d e, o.ShouldBindJSON = .ok p → mapGet languages p.Type' = some l →
      o.TempDir = .ok d → o.WriteFile = none → o.Abs = .error e →
      replies (execute o) = [errorResponse]) ∧
    (∀ p l d fp e, o.ShouldBindJSON = .ok p → mapGet languages p.Type' = some l →
      o.TempDir = .ok d → o.WriteFile = none → o.Abs = .ok fp →
      o.NewClientWithOpts = some e → replies (execute o) = [errorResponse]) ∧
    (∀ p l d fp e, o.ShouldBindJSON = .ok p → mapGet languages p.Type' = some l →
      o.TempDir = .ok d → o.WriteFile = none → o.Abs = .ok fp →
      o.NewClientWithOpts = none → o.ContainerCreate = .error e →
      replies (execute o) = [errorResponse]) ∧
    (∀ p l d fp id e, Provisioned o p l d fp id → o.ContainerStart = some e →
      replies (execute o) = [errorResponse]) ∧
    (∀ p l d fp id e, Provisioned o p l d fp id → o.ContainerStart = none →
      o.ContainerWait = .errCh (some e) → replies (execute o) = [errorResponse]) ∧
    (∀ p l d fp id, Provisioned o p l d fp id → o.ContainerStart = none →
      o.ContainerWait = .statusCh 137 → replies (execute o) = [errorResponse]) ∧
    (∀ p l d fp id c e, Provisioned o p l d fp id → o.ContainerStart = none →
      o.ContainerWait = .statusCh c → c ≠ 137 → o.ContainerLogs = some e →
      replies (execute o) = [errorResponse]) ∧
    (∀ p l d fp id c e, Provisioned o p l d fp id → o.ContainerStart = none →
      o.ContainerWait = .statusCh c → c ≠ 137 → o.ContainerLogs = none →
      o.ReadAll = .error e → replies (execute o) = [errorResponse]) ∧
    (∀ p l d fp id, Provisioned o p l d fp id → o.ContainerStart = none →
      o.ContainerWait = .after → replies (execute o) = [errorResponse]) ∧
    (∀ (o' : Outcomes) (r r' : Response),
      r ∈ replies (execute o) → r' ∈ replies (execute o') → r.code ≠ 200 → r'.code ≠ 200 →
      r = r' ∧ r = errorResponse) := by
  refine ⟨rfl, ?_, ?_, ?_, ?_, ?_, ?_, ?_, ?_, ?_, ?_, ?_, ?_, ?_, ?_⟩
  · intro e h1
    simp [execute, body, Frame.ret, Frame.emit, Frame.fail, replies, responses,
      reply_errorResponse, h1]
  · intro p h1 h2
    simp [execute, body, Frame.ret, Frame.emit, Frame.fail, replies, responses,
      reply_errorResponse, h1, h2]
  · intro p l e h1 h2 h3
    simp [execute, body, workspace, Frame.ret, Frame.emit, Frame.fail, replies, responses,
      reply_errorResponse, h1, h2, h3]
  · intro p l d e h1 h2 h3 h4
    simp [execute, body, workspace, Frame.ret, Frame.emit, Frame.defer, Frame.fail, replies,
      responses, reply_errorResponse, h1, h2, h3, h4]
  · intro p l d e h1 h2 h3 h4 h5
    simp [execute, body, workspace, Frame.ret, Frame.emit, Frame.defer, Frame.fail, replies,
      responses, reply_errorResponse, h1, h2, h3, h4, h5]
  · intro p l d fp e h1 h2 h3 h4 h5 h6
    simp [execute, body, workspace, provision, Frame.ret, Frame.emit, Frame.defer,
      Frame.fail, replies, responses, reply_errorResponse, h1, h2, h3, h4, h5, h6]
  · intro p l d fp e h1 h2 h3 h4 h5 h6 h7
    simp [execute, body, workspace, provision, Frame.ret, Frame.emit, Frame.defer,
      Frame.fail, replies, responses, reply_errorResponse, h1, h2, h3, h4, h5, h6, h7]
  · rintro p l d fp id e ⟨h1, h2, h3, h4, h5, h6, h7⟩ hs
    simp [execute, body, workspace, provision, Frame.ret, Frame.emit, Frame.defer,
      Frame.fail, replies, responses, reply_errorResponse, h1, h2, h3, h4, h5, h6, h7, hs]
  · rintro p l d fp id e ⟨h1, h2, h3, h4, h5, h6, h7⟩ hs hw
    simp [execute, body, workspace, provision, await, Frame.ret, Frame.emit, Frame.defer,
      Frame.fail, replies, responses, reply_errorResponse, h1, h2, h3, h4, h5, h6, h7, hs,
      hw]
  · rintro p l d fp id ⟨h1, h2, h3, h4, h5, h6, h7⟩ hs hw
    simp [execute, body, workspace, provision, await, Frame.ret, Frame.emit, Frame.defer,
      Frame.fail, replies, responses, reply_errorResponse, h1, h2, h3, h4, h5, h6, h7, hs,
      hw]
  · rintro p l d fp id c e ⟨h1, h2, h3, h4, h5, h6, h7⟩ hs hw hc hl
    simp [execute, body, workspace, provision, await, collect, Frame.ret, Frame.emit,
      Frame.defer, Frame.fail, replies, responses, reply_errorResponse, h1, h2, h3, h4, h5,
      h6, h7, hs, hw, hc, hl]
  · rintro p l d fp id c e ⟨h1, h2, h3, h4, h5, h6, h7⟩ hs hw hc hl hr
    simp [execute, body, workspace, provision, await, collect, Frame.ret, Frame.emit,
      Frame.defer, Frame.fail, replies, responses, reply_errorResponse, h1, h2, h3, h4, h5,
      h6, h7, hs, hw, hc, hl, hr]
  · rintro p l d fp id ⟨h1, h2, h3, h4, h5, h6, h7⟩ hs hw
    simp [execute, body, workspace, provision, await, Frame.ret, Frame.emit, Frame.defer,
      Frame.fail, replies, responses, reply_errorResponse, h1, h2, h3, h4, h5, h6, h7, hs,
      hw]
  · intro o' r r' h h' f f'
    have e₁ : r = errorResponse := by
      rcases replies_cases o r h with h | ⟨b, h⟩
      · exact h
      · exact absurd (by rw [h]; rfl) f
    have e₂ : r' = errorResponse := by
      rcases replies_cases o' r' h' with h | ⟨b, h⟩
      · exact h
      · exact absurd (by rw [h]; rfl) f'
    exact ⟨e₁.trans e₂.symm, e₁⟩

/-- C8 at a bind failure, a failed start, a log-read failure and a timeout:
four different causes and error values, one reply. -/
theorem C8_uniform_failure_response_witness :
    replies (execute bindFails) = [⟨500, .message 500 "something went wrong"⟩] ∧
    replies (execute startFails) = [⟨500, .message 500 "something went wrong"⟩] ∧
    replies (execute readFails) = [⟨500, .message 500 "something went wrong"⟩] ∧
    replies (execute timesOut) = [⟨500, .message 500 "something went wrong"⟩] :=
  ⟨(C8_uniform_failure_response bindFails).2.1 "EOF" rfl,
   (C8_uniform_failure_response startFails).2.2.2.2.2.2.2.2.1 _ _ _ _ _
      "start: no such image" happy_provisioned rfl,
   (C8_uniform_failure_response readFails).2.2.2.2.2.2.2.2.2.2.2.2.1 _ _ _ _ _ 0
      "unexpected EOF" happy_provisioned rfl rfl (by decide) rfl rfl,
   (C8_uniform_failure_response timesOut).2.2.2.2.2.2.2.2.2.2.2.2.2.1 _ _ _ _ _
      happy_provisioned rfl rfl⟩

/-- C9: for a bound request whose tag is registered with profile `langauge`,
once the workspace `dir` is created, the write succeeds, `dir` resolves to
`fullpath` and the client is initialised, the run starts with: `TempDir`, the
write of `payload.Code` unchanged to `Join(dir, filename)` with mode 0777,
`Abs(dir)`, the client, and then the create request with `Image` = the
profile's image, `Env` = the one entry `FILE_NAME=<filename>`, `Tty` false,
`AttachStdout` and `AttachStderr` true, one bind mount from `fullpath` to
`/app`, and `Memory` = 1000000000.  No other create request follows.  The
profile is one of the five rows of `languages`. -/
theorem C9_create_request_configuration (o : Outcomes) (payload : Payload)
    (langauge : List (String × String)) (dir fullpath : String)
    (h1 : o.ShouldBindJSON = .ok payload)
    (h2 : mapGet languages payload.Type' = some langauge)
    (h3 : o.TempDir = .ok dir) (h4 : o.WriteFile = none) (h5 : o.Abs = .ok fullpath)
    (h6 : o.NewClientWithOpts = none) :
    (payload.Type', mapIndex langauge "image", mapIndex langauge "filename") ∈
      [("python", "python-0.1", "main.py"), ("node", "node-0.1", "main.js"),
       ("c", "c-0.1", "main.c"), ("cpp", "cpp-0.1", "main.cpp"), ("go", "go-0.1", "main.go")] ∧
    ∃ rest, execute o =
      [.TempDir "./" "source",
       .WriteFile (o.Join dir (mapIndex langauge "filename")) payload.Code 0o777,
       .Abs dir,
       .NewClientWithOpts,
       .ContainerCreate
         { Image := mapIndex langauge "image",
           Env := ["FILE_NAME=" ++ mapIndex langauge "filename"],
           Tty := false, AttachStdout := true, AttachStderr := true }
         { Mounts := [{ Type' := "bind", Source := fullpath, Target := "/app" }],
           Memory := 1000000000 }
         ""] ++ rest ∧
      ∀ cfg host name, .ContainerCreate cfg host name ∉ rest := by
  refine ⟨languages_profiles _ _ h2, (execute o).drop 5, ?_, ?_⟩
  · simp only [execute, body, workspace, provision, await, collect, Frame.ret, Frame.emit,
      Frame.defer, Frame.fail, h1, h2, h3, h4, h5, h6]
    repeat' split
    all_goals simp [containerConfig, hostConfig, TypeBind]
  · simp only [execute, body, workspace, provision, await, collect, Frame.ret, Frame.emit,
      Frame.defer, Frame.fail, h1, h2, h3, h4, h5, h6]
    repeat' split
    all_goals simp

/-- C9 at `happy`: python, workspace `source1` at `/srv/source1`. -/
theorem C9_create_request_configuration_witness :
    ∃ rest, execute happy =
      [.TempDir "./" "source",
       .WriteFile "source1/main.py" [104, 105] 0o777,
       .Abs "source1",
       .NewClientWithOpts,
       .ContainerCreate
         { Image := "python-0.1", Env := ["FILE_NAME=main.py"],
           Tty := false, AttachStdout := true, AttachStderr := true }
         { Mounts := [{ Type' := "bind", Source := "/srv/source1", Target := "/app" }],
           Memory := 1000000000 }
         ""] ++ rest ∧
      ∀ cfg host name, .ContainerCreate cfg host name ∉ rest :=
  (C9_create_request_configuration happy ⟨"python", [104, 105]⟩
    [("image", "python-0.1"), ("filename", "main.py")] "source1" "/srv/source1"
    rfl (by decide) rfl rfl rfl rfl).2

/-- C6: when the status channel is received first with code `c`, the prune
call is issued exactly when `c = 137`.  With 137 the run is: the provisioning
and start calls, the wait, then `ContainersPrune`, the log line, the error
response, and the deferred calls; so the prune precedes the only response,
that response is the failure, no `ContainerLogs` call is made, and the run
does not depend on what the prune call returns. -/
theorem C6_out_of_memory_path (o : Outcomes) (payload : Payload)
    (langauge : List (String × String)) (dir fullpath id : String) (c : Int)
    (hp : Provisioned o payload langauge dir fullpath id)
    (hs : o.ContainerStart = none) (hw : o.ContainerWait = .statusCh c) :
    (.ContainersPrune ∈ execute o ↔ c = 137) ∧
    (c = 137 →
      execute o =
        [.TempDir "./" "source",
         .WriteFile (o.Join dir (mapIndex langauge "filename")) payload.Code 0o777,
         .Abs dir,
         .NewClientWithOpts,
         .ContainerCreate (containerConfig langauge) (hostConfig fullpath) "",
         .ContainerStart id,
         .ContainerWait id "not-running",
         .After (10 * 1000000000),
         .ContainersPrune,
         .Println "StatusCode:" "Out of Memory",
         .JSON ⟨500, .message 500 "something went wrong"⟩,
         .CliClose,
         .RemoveAll dir] ∧
      responses (execute o) = [⟨500, .message 500 "something went wrong"⟩] ∧
      (∀ i so se, .ContainerLogs i so se ∉ execute o) ∧
      ∀ r, execute { o with ContainersPrune := r } = execute o) := by
  obtain ⟨h1, h2, h3, h4, h5, h6, h7⟩ := hp
  refine ⟨?_, fun hc => ⟨?_, ?_, ?_, fun r => rfl⟩⟩
  · by_cases hc : c = 137
    · simp [execute, body, workspace, provision, await, Frame.ret, Frame.emit,
        Frame.defer, Frame.fail, h1, h2, h3, h4, h5, h6, h7, hs, hw, hc]
    · simp only [execute, body, workspace, provision, await, collect, Frame.ret, Frame.emit,
        Frame.defer, Frame.fail, h1, h2, h3, h4, h5, h6, h7, hs, hw, hc, if_false]
      repeat' split
      all_goals simp [hc]
  all_goals
    simp [execute, body, workspace, provision, await, Frame.ret, Frame.emit,
      Frame.defer, Frame.fail, responses, h1, h2, h3, h4, h5, h6, h7, hs, hw, hc,
      errorResponse, StatusInternalServerError, ErrSomethingWentWrong,
      WaitConditionNotRunning, awaitDeadline]

/-- C6 at `oomKilled`: exit code 137. -/
theorem C6_out_of_memory_path_witness :
    Event.ContainersPrune ∈ execute oomKilled ∧
    responses (execute oomKilled) = [⟨500, .message 500 "something went wrong"⟩] ∧
    (∀ i so se, .ContainerLogs i so se ∉ execute oomKilled) ∧
    ∀ r, execute { oomKilled with ContainersPrune := r } = execute oomKilled :=
  have h := C6_out_of_memory_path oomKilled _ _ _ _ _ 137 happy_provisioned rfl rfl
  ⟨h.1.2 rfl, (h.2 rfl).2⟩

/-- C7: when provisioning and start succeeded and the 10-second timer is the
case the `select` takes, the run is: the provisioning and start calls, the
wait, then `ContainerRemove(id, Force: true)`, then the error response, then
the deferred calls.  So the forced remove precedes the only response, that
response is the failure, no `ContainerLogs` call is made, and the run does not
depend on what the remove call returns. -/
theorem C7_deadline_forces_remove (o : Outcomes) (payload : Payload)
    (langauge : List (String × String)) (dir fullpath id : String)
    (hp : Provisioned o payload langauge dir fullpath id)
    (hs : o.ContainerStart = none) (hw : o.ContainerWait = .after) :
    execute o =
      [.TempDir "./" "source",
       .WriteFile (o.Join dir (mapIndex langauge "filename")) payload.Code 0o777,
       .Abs dir,
       .NewClientWithOpts,
       .ContainerCreate (containerConfig langauge) (hostConfig fullpath) "",
       .ContainerStart id,
       .ContainerWait id "not-running",
       .After (10 * 1000000000),
       .ContainerRemove id true,
       .JSON ⟨500, .message 500 "something went wrong"⟩,
       .CliClose,
       .RemoveAll dir] ∧
    responses (execute o) = [⟨500, .message 500 "something went wrong"⟩] ∧
    (∀ i so se, .ContainerLogs i so se ∉ execute o) ∧
    ∀ r, execute { o with ContainerRemove := r } = execute o := by
  obtain ⟨h1, h2, h3, h4, h5, h6, h7⟩ := hp
  refine ⟨?_, ?_, ?_, fun r => rfl⟩
  all_goals
    simp [execute, body, workspace, provision, await, Frame.ret, Frame.emit,
      Frame.defer, Frame.fail, responses, h1, h2, h3, h4, h5, h6, h7, hs, hw,
      errorResponse, StatusInternalServerError, ErrSomethingWentWrong,
      WaitConditionNotRunning, awaitDeadline]

/-- C7 at `timesOut`. -/
theorem C7_deadline_forces_remove_witness :
    responses (execute timesOut) = [⟨500, .message 500 "something went wrong"⟩] ∧
    (∀ i so se, .ContainerLogs i so se ∉ execute timesOut) ∧
    ∀ r, execute { timesOut with ContainerRemove := r } = execute timesOut :=
  (C7_deadline_forces_remove timesOut _ _ _ _ _ happy_provisioned rfl rfl).2

/-- C1, as stated, fails: in each of five runs the create call returned the id
`c1`, and the run contains no `ContainerRemove("c1", Force: true)`: start
failure, a non-nil error on the error channel, exit code 137, a log-fetch
failure, and a log-read failure. -/
theorem C1_counterexample :
    (startFails.ContainerCreate = .ok "c1" ∧
      Event.ContainerRemove "c1" true ∉ execute startFails) ∧
    (waitErrs.ContainerCreate = .ok "c1" ∧
      Event.ContainerRemove "c1" true ∉ execute waitErrs) ∧
    (oomKilled.ContainerCreate = .ok "c1" ∧
      Event.ContainerRemove "c1" true ∉ execute oomKilled) ∧
    (logsFail.ContainerCreate = .ok "c1" ∧
      Event.ContainerRemove "c1" true ∉ execute logsFail) ∧
    (readFails.ContainerCreate = .ok "c1" ∧
      Event.ContainerRemove "c1" true ∉ execute readFails) :=
  ⟨⟨rfl, by decide⟩, ⟨rfl, by decide⟩, ⟨rfl, by decide⟩, ⟨rfl, by decide⟩, ⟨rfl, by decide⟩⟩

/-- C1, amended: after a successful create (id `id`) and start, the calls to
the container runtime are, in order, (a) when the timer fires first: create,
start, wait, `ContainerRemove(id, Force: true)`; (b) when the status channel
is received first with a code other than 137 and the logs are fetched and
read: create, start, wait, logs, `ContainerRemove(id, Force: true)`; (c) when
the status channel is received first with code 137: create, start, wait,
`ContainersPrune`, and no remove call. -/
theorem C1_forced_remove_on_deadline_and_collect (o : Outcomes) (payload : Payload)
    (langauge : List (String × String)) (dir fullpath id : String)
    (hp : Provisioned o payload langauge dir fullpath id)
    (hs : o.ContainerStart = none) :
    (o.ContainerWait = .after →
      runtimeCalls (execute o) =
        [.ContainerCreate (containerConfig langauge) (hostConfig fullpath) "",
         .ContainerStart id, .ContainerWait id "not-running",
         .ContainerRemove id true]) ∧
    (∀ c b, o.ContainerWait = .statusCh c → c ≠ 137 → o.ContainerLogs = none →
      o.ReadAll = .ok b →
      runtimeCalls (execute o) =
        [.ContainerCreate (containerConfig langauge) (hostConfig fullpath) "",
         .ContainerStart id, .ContainerWait id "not-running",
         .ContainerLogs id true true, .ContainerRemove id true]) ∧
    (o.ContainerWait = .statusCh 137 →
      runtimeCalls (execute o) =
        [.ContainerCreate (containerConfig langauge) (hostConfig fullpath) "",
         .ContainerStart id, .ContainerWait id "not-running",
         .ContainersPrune]) := by
  obtain ⟨h1, h2, h3, h4, h5, h6, h7⟩ := hp
  refine ⟨fun hw => ?_, fun c b hw hc hl hr => ?_, fun hw => ?_⟩
  · simp [execute, body, workspace, provision, await, Frame.ret, Frame.emit,
      Frame.defer, Frame.fail, runtimeCalls, Event.isRuntimeCall, WaitConditionNotRunning,
      h1, h2, h3, h4, h5, h6, h7, hs, hw]
  · simp [execute, body, workspace, provision, await, collect, Frame.ret, Frame.emit,
      Frame.defer, Frame.fail, runtimeCalls, Event.isRuntimeCall, WaitConditionNotRunning,
      h1, h2, h3, h4, h5, h6, h7, hs, hw, hc, hl, hr]
  · simp [execute, body, workspace, provision, await, Frame.ret, Frame.emit,
      Frame.defer, Frame.fail, runtimeCalls, Event.isRuntimeCall, WaitConditionNotRunning,
      h1, h2, h3, h4, h5, h6, h7, hs, hw]

/-- C1, amended, at `timesOut`, `happy` and `oomKilled`. -/
theorem C1_forced_remove_on_deadline_and_collect_witness :
    runtimeCalls (execute timesOut) =
      [.ContainerCreate (containerConfig [("image", "python-0.1"), ("filename", "main.py")])
         (hostConfig "/srv/source1") "",
       .ContainerStart "c1", .ContainerWait "c1" "not-running",
       .ContainerRemove "c1" true] ∧
    runtimeCalls (execute happy) =
      [.ContainerCreate (containerConfig [("image", "python-0.1"), ("filename", "main.py")])
         (hostConfig "/srv/source1") "",
       .ContainerStart "c1", .ContainerWait "c1" "not-running",
       .ContainerLogs "c1" true true, .ContainerRemove "c1" true] ∧
    runtimeCalls (execute oomKilled) =
      [.ContainerCreate (containerConfig [("image", "python-0.1"), ("filename", "main.py")])
         (hostConfig "/srv/source1") "",
       .ContainerStart "c1", .ContainerWait "c1" "not-running",
       .ContainersPrune] :=
  ⟨(C1_forced_remove_on_deadline_and_collect timesOut _ _ _ _ _ happy_provisioned rfl).1 rfl,
   (C1_forced_remove_on_deadline_and_collect happy _ _ _ _ _ happy_provisioned rfl).2.1
      0 [111, 107, 10] rfl (by decide) rfl rfl,
   (C1_forced_remove_on_deadline_and_collect oomKilled _ _ _ _ _ happy_provisioned rfl).2.2
      rfl⟩

/-- C5: the docker client sends only non-nil errors on the error channel
and never closes it, so the `select` never receives a nil error.  On every
such run the handler writes exactly one response, and the caller receives
exactly one reply; and whenever the error channel is received first, for
every error value it delivers, that response is the failure. -/
theorem C5_one_response (o : Outcomes) (hnil : o.ContainerWait ≠ .errCh none) :
    (responses (execute o)).length = 1 ∧
    (replies (execute o)).length = 1 ∧
    (∀ payload langauge dir fullpath id err,
      Provisioned o payload langauge dir fullpath id → o.ContainerStart = none →
      o.ContainerWait = .errCh (some err) →
      responses (execute o) = [⟨500, .message 500 "something went wrong"⟩] ∧
      replies (execute o) = [⟨500, .message 500 "something went wrong"⟩]) := by
  have hone : (responses (execute o)).length = 1 := by
    revert hnil
    simp only [execute, body, workspace, provision, await, collect, Frame.ret,
      Frame.emit, Frame.defer, Frame.fail, responses]
    repeat' split
    all_goals simp_all
  refine ⟨hone, by simp [replies, hone], ?_⟩
  rintro payload langauge dir fullpath id err ⟨h1, h2, h3, h4, h5, h6, h7⟩ hs hw
  have hres : responses (execute o) = [⟨500, .message 500 "something went wrong"⟩] := by
    simp [execute, body, workspace, provision, await, Frame.ret, Frame.emit,
      Frame.defer, Frame.fail, responses, h1, h2, h3, h4, h5, h6, h7, hs, hw,
      errorResponse, StatusInternalServerError, ErrSomethingWentWrong]
  exact ⟨hres, by rw [replies, hres]; rfl⟩

/-- C5 at `waitErrs` (a non-nil error on the error channel). -/
theorem C5_one_response_witness :
    (responses (execute waitErrs)).length = 1 ∧
    replies (execute waitErrs) = [⟨500, .message 500 "something went wrong"⟩] :=
  ⟨(C5_one_response waitErrs (by decide)).1,
   ((C5_one_response waitErrs (by decide)).2.2 _ _ _ _ _ "wait: EOF"
      happy_provisioned rfl rfl).2⟩

/-- C2: when the request is bound, its tag is registered and `TempDir`
returns `dir`, the run ends with `os.RemoveAll(dir)` and contains no other
`RemoveAll` call, whatever the later steps deliver; and in every other run
(bind failure, unknown tag, `TempDir` failure) there is no `RemoveAll` call. -/
theorem C2_workspace_removed_exactly_once (o : Outcomes) :
    (∀ payload langauge dir,
      o.ShouldBindJSON = .ok payload → mapGet languages payload.Type' = some langauge →
      o.TempDir = .ok dir →
      ∃ calls, execute o = calls ++ [.RemoveAll dir] ∧ ∀ p, .RemoveAll p ∉ calls) ∧
    ((¬ ∃ payload langauge dir,
        o.ShouldBindJSON = .ok payload ∧ mapGet languages payload.Type' = some langauge ∧
        o.TempDir = .ok dir) →
      ∀ p, .RemoveAll p ∉ execute o) := by
  constructor
  · intro payload langauge dir h1 h2 h3
    refine ⟨(execute o).dropLast, ?_, ?_⟩
    · simp only [execute, body, workspace, provision, await, collect, Frame.ret, Frame.emit,
        Frame.defer, Frame.fail, h1, h2, h3]
      repeat' split
      all_goals simp
    · simp only [execute, body, workspace, provision, await, collect, Frame.ret, Frame.emit,
        Frame.defer, Frame.fail, h1, h2, h3]
      repeat' split
      all_goals simp
  · simp only [execute, body, workspace, provision, await, collect, Frame.ret, Frame.emit,
      Frame.defer, Frame.fail]
    repeat' split
    all_goals simp_all

/-- C2 at `timesOut` (workspace `source1`) and at `tempDirFails`. -/
theorem C2_workspace_removed_exactly_once_witness :
    (∃ calls, execute timesOut = calls ++ [.RemoveAll "source1"] ∧
      ∀ p, .RemoveAll p ∉ calls) ∧
    ∀ p, .RemoveAll p ∉ execute tempDirFails :=
  ⟨(C2_workspace_removed_exactly_once timesOut).1 ⟨"python", [104, 105]⟩
      [("image", "python-0.1"), ("filename", "main.py")] "source1" rfl (by decide) rfl,
   (C2_workspace_removed_exactly_once tempDirFails).2 (by
      rintro ⟨_, _, _, _, _, h⟩
      exact absurd h (by simp [tempDirFails]))⟩

/-- C10: in every run the calls to the container runtime are, in order, one of
the eight initial segments of create, start, wait followed by prune, or by
logs and remove, or by remove; start, wait, logs and remove carry the id the
create call returned; a start call occurs only if create returned an id, a
wait call only if moreover start returned nil, a logs call only if moreover
the status channel was received with a code other than 137; and unless every
step up to and including create succeeded, the only runtime call, if any, is
the create call. -/
theorem C10_runtime_call_order (o : Outcomes) :
    (runtimeCalls (execute o) = [] ∨
      ∃ cfg host, runtimeCalls (execute o) = [.ContainerCreate cfg host ""] ∨
      ∃ id, o.ContainerCreate = .ok id ∧
        (runtimeCalls (execute o) = [.ContainerCreate cfg host "", .ContainerStart id] ∨
         runtimeCalls (execute o) =
           [.ContainerCreate cfg host "", .ContainerStart id,
            .ContainerWait id "not-running"] ∨
         runtimeCalls (execute o) =
           [.ContainerCreate cfg host "", .ContainerStart id,
            .ContainerWait id "not-running", .ContainersPrune] ∨
         runtimeCalls (execute o) =
           [.ContainerCreate cfg host "", .ContainerStart id,
            .ContainerWait id "not-running", .ContainerLogs id true true] ∨
         runtimeCalls (execute o) =
           [.ContainerCreate cfg host "", .ContainerStart id,
            .ContainerWait id "not-running", .ContainerLogs id true true,
            .ContainerRemove id true] ∨
         runtimeCalls (execute o) =
           [.ContainerCreate cfg host "", .ContainerStart id,
            .ContainerWait id "not-running", .ContainerRemove id true])) ∧
    (∀ id, .ContainerStart id ∈ execute o → o.ContainerCreate = .ok id) ∧
    (∀ id cond, .ContainerWait id cond ∈ execute o →
      o.ContainerCreate = .ok id ∧ o.ContainerStart = none) ∧
    (∀ id so se, .ContainerLogs id so se ∈ execute o →
      o.ContainerCreate = .ok id ∧ o.ContainerStart = none ∧
      ∃ c, o.ContainerWait = .statusCh c ∧ c ≠ 137) ∧
    ((¬ ∃ payload langauge dir fullpath id,
        Provisioned o payload langauge dir fullpath id) →
      runtimeCalls (execute o) = [] ∨
      ∃ cfg host, runtimeCalls (execute o) = [.ContainerCreate cfg host ""]) := by
  refine ⟨?_, ?_, ?_, ?_, ?_⟩
  · simp only [execute, body, workspace, provision, await, collect, Frame.ret, Frame.emit,
      Frame.defer, Frame.fail]
    repeat' split
    all_goals simp_all [runtimeCalls, Event.isRuntimeCall, WaitConditionNotRunning]
  · simp only [execute, body, workspace, provision, await, collect, Frame.ret, Frame.emit,
      Frame.defer, Frame.fail]
    repeat' split
    all_goals simp_all
  · simp only [execute, body, workspace, provision, await, collect, Frame.ret, Frame.emit,
      Frame.defer, Frame.fail]
    repeat' split
    all_goals simp_all
  · simp only [execute, body, workspace, provision, await, collect, Frame.ret, Frame.emit,
      Frame.defer, Frame.fail]
    repeat' split
    all_goals simp_all
  · simp only [Provisioned, execute, body, workspace, provision, await, collect, Frame.ret,
      Frame.emit, Frame.defer, Frame.fail]
    repeat' split
    all_goals simp_all [runtimeCalls, Event.isRuntimeCall]

/-- C10 at `startFails` (the start call carries the id create returned) and at
`tempDirFails` (no runtime call at all or only a create). -/
theorem C10_runtime_call_order_witness :
    startFails.ContainerCreate = .ok "c1" ∧
    (runtimeCalls (execute tempDirFails) = [] ∨
      ∃ cfg host, runtimeCalls (execute tempDirFails) = [.ContainerCreate cfg host ""]) :=
  ⟨(C10_runtime_call_order startFails).2.1 "c1" (by decide),
   (C10_runtime_call_order tempDirFails).2.2.2.2 (by
      rintro ⟨_, _, _, _, _, _, _, h, _⟩
      exact absurd h (by simp [tempDirFails]))⟩

end RemoteCodeExec
